import Mathlib

/-!
Verification of the installation-and-launch orchestrator's core logic:
the install path validator (`validateInstallPath`), the requirement
classifier (`hasRequirements`), the virtual environment lifecycle
(`create`, the pty `#using` guard, `removeVenvDirectory`), and the
installation state machine (`ComfyInstallation.validate`).

External effects (filesystem probes, child processes, disk queries) are
modelled as environment records supplying each probe's outcome; fallible
probes use `Except` so an exception caught by the source's `try`/`catch`
blocks is represented faithfully.
-/

set_option maxHeartbeats 1000000

namespace AIWorkstation

/-- `process.platform` values relevant to the source. -/
inductive Platform
  | win32
  | darwin
  | linux
deriving DecidableEq, Repr

/-- `RestrictedPathType` from pathHandlers: 'appInstallDir' | 'updaterCache' | 'oneDrive'. -/
inductive RestrictedPathType
  | appInstallDir
  | updaterCache
  | oneDrive
deriving DecidableEq, Repr

/-- `PathRestrictionFlags` returned by `evaluatePathRestrictions`. -/
structure PathRestrictionFlags where
  normalizedPath : Option String
  isInsideAppInstallDir : Bool
  isInsideUpdaterCache : Bool
  isOneDrive : Bool
deriving DecidableEq, Repr

/-- `WIN_REQUIRED_SPACE = 10 * 1024 * 1024 * 1024` (10GB in bytes). -/
def WIN_REQUIRED_SPACE : Nat := 10 * 1024 * 1024 * 1024

/-- `MAC_REQUIRED_SPACE = 5 * 1024 * 1024 * 1024` (5GB in bytes). -/
def MAC_REQUIRED_SPACE : Nat := 5 * 1024 * 1024 * 1024

/-- One entry of `si.fsSize()`: a mount point and its available bytes. -/
structure DiskInfo where
  mount : String
  available : Nat
deriving DecidableEq, Repr

/-- `PathValidationResult` as produced by the VALIDATE_INSTALL_PATH handler. -/
structure PathValidationResult where
  isValid : Bool
  freeSpace : Int
  requiredSpace : Nat
  isOneDrive : Bool
  isNonDefaultDrive : Bool
  parentMissing : Bool
  pathExists : Bool
  cannotWrite : Bool
  isInsideAppInstallDir : Bool
  isInsideUpdaterCache : Bool
  error : Option String
deriving DecidableEq, Repr

/-- Environment for the VALIDATE_INSTALL_PATH handler: outcomes of every
external probe the handler performs, in source order. Probes the source
wraps in the outer `try` are `Except`; the write probe has its own
`catch` and is a plain `Bool`. -/
structure PathEnv where
  platform : Platform
  /-- `process.env.SystemDrive` -/
  systemDrive : Option String
  /-- `evaluatePathRestrictions(inputPath)` -/
  evalRestrictions : String → PathRestrictionFlags
  /-- `fs.existsSync(path.dirname(inputPath))` -/
  parentExists : Except String Bool
  /-- `fs.existsSync(inputPath)` -/
  inputExists : Except String Bool
  /-- `fs.statSync(inputPath).isDirectory()` -/
  statIsDirectory : Except String Bool
  /-- `fs.readdirSync(inputPath).length` -/
  readdirCount : Except String Nat
  /-- `fs.accessSync(parent, fs.constants.W_OK)` succeeds -/
  parentWritable : Bool
  /-- `si.fsSize()` -/
  fsSize : Except String (List DiskInfo)
  /-- Whether a disk's normalized mount contains the normalized path
  (`normalizedMount && normalizedPath && isPathInside(...)`). -/
  mountMatches : DiskInfo → Bool

/-- The existence/content check of the handler: a present non-directory
counts as existing, a present directory counts as existing iff it has at
least one entry, an absent path keeps the prior value (`false`). -/
def existsOutcome (env : PathEnv) (prior : Bool) : Except String Bool :=
  match env.inputExists with
  | Except.error e => Except.error e
  | Except.ok false => Except.ok prior
  | Except.ok true =>
    match env.statIsDirectory with
    | Except.error e => Except.error e
    | Except.ok false => Except.ok true
    | Except.ok true =>
      match env.readdirCount with
      | Except.error e => Except.error e
      | Except.ok n => Except.ok (decide (0 < n))

/-- The first two steps of the `try` block: restriction membership and
the non-default-drive check. -/
def restrictionDrivePhase (env : PathEnv) (inputPath : String) (r : PathValidationResult) :
    PathValidationResult :=
  let flags := env.evalRestrictions inputPath
  let r := { r with
    isInsideAppInstallDir := flags.isInsideAppInstallDir
    isInsideUpdaterCache := flags.isInsideUpdaterCache
    isOneDrive := r.isOneDrive || flags.isOneDrive }
  if env.platform = Platform.win32 then
    let systemDrive :=
      match env.systemDrive with
      | some s => if s.isEmpty then "C:" else s
      | none => "C:"
    match flags.normalizedPath with
    | some np =>
        if ¬ np.startsWith systemDrive.toLower then { r with isNonDefaultDrive := true } else r
    | none => r
  else r

/-- Body of the outer `try` block of the VALIDATE_INSTALL_PATH handler.
Any probe error is caught and recorded as `result.error`, leaving fields
set so far intact. -/
def validateTryBody (env : PathEnv) (inputPath : String) (r : PathValidationResult) :
    PathValidationResult :=
  let r := restrictionDrivePhase env inputPath r
  match env.parentExists with
  | Except.error e => { r with error := some e }
  | Except.ok parentEx =>
    let r := if ¬ parentEx then { r with parentMissing := true } else r
    match existsOutcome env r.pathExists with
    | Except.error e => { r with error := some e }
    | Except.ok ex =>
      let r := { r with pathExists := ex }
      let r := if ¬ env.parentWritable then { r with cannotWrite := true } else r
      match env.fsSize with
      | Except.error e => { r with error := some e }
      | Except.ok disks =>
        if disks.isEmpty then { r with freeSpace := (r.requiredSpace : Int) }
        else
          match disks.find? env.mountMatches with
          | some d => { r with freeSpace := (d.available : Int) }
          | none => r

/-- The initial `result` record of the VALIDATE_INSTALL_PATH handler. -/
def initialPathResult (platform : Platform) : PathValidationResult where
  isValid := true
  freeSpace := -1
  requiredSpace := if platform = Platform.darwin then MAC_REQUIRED_SPACE else WIN_REQUIRED_SPACE
  isOneDrive := false
  isNonDefaultDrive := false
  parentMissing := false
  pathExists := false
  cannotWrite := false
  isInsideAppInstallDir := false
  isInsideUpdaterCache := false
  error := none

/-- The VALIDATE_INSTALL_PATH handler. Populates a `PathValidationResult`
and derives `isValid` from the blocking conditions. -/
def validateInstallPath (env : PathEnv) (inputPath : String) (bypassSpaceCheck : Bool) :
    PathValidationResult :=
  let requiredSpace := if env.platform = Platform.darwin then MAC_REQUIRED_SPACE else WIN_REQUIRED_SPACE
  let r := validateTryBody env inputPath (initialPathResult env.platform)
  let hasBlockingIssues :=
    r.cannotWrite ||
    r.parentMissing ||
    (!bypassSpaceCheck && decide (0 ≤ r.freeSpace) && decide (r.freeSpace < (requiredSpace : Int))) ||
    r.error.isSome ||
    r.isOneDrive ||
    r.isInsideAppInstallDir ||
    r.isInsideUpdaterCache
  { r with isValid := !hasBlockingIssues }

/-- `true` iff the handler's execution reaches the writability probe,
i.e. no probe before it raised. -/
def reachesWriteProbe (env : PathEnv) : Bool :=
  env.parentExists.isOk &&
    match env.inputExists with
    | Except.error _ => false
    | Except.ok false => true
    | Except.ok true =>
      match env.statIsDirectory with
      | Except.error _ => false
      | Except.ok false => true
      | Except.ok true => env.readdirCount.isOk

/-! ### hasRequirements: dry-run output classification

The classifiers below embed the three regular expressions used by
`VirtualEnvironment.hasRequirements` as direct character-list matchers
(JS regex `\s`, `\w` and `.` restricted to their ASCII behaviour, which
covers every character the package manager emits). -/

/-- JS regex `\w`: ASCII letters, digits, underscore. -/
def isWordChar (c : Char) : Bool := c.isAlpha || c.isDigit || c = '_'

/-- JS regex `\s` (ASCII part): space, tab, newline, carriage return,
vertical tab, form feed. -/
def isJsSpace (c : Char) : Bool :=
  c = ' ' || c = '\t' || c = '\n' || c = '\r' || c = '\x0b' || c = '\x0c'

/-- JS regex `[\d.]`. -/
def isDigitOrDot (c : Char) : Bool := c.isDigit || c = '.'

/-- If `cs` starts with `pat`, return the remainder. -/
def dropPrefixChars : List Char → List Char → Option (List Char)
  | [], cs => some cs
  | _ :: _, [] => none
  | p :: ps, c :: cs => if c = p then dropPrefixChars ps cs else none

/-- Every character is JS whitespace. -/
def allSpace : List Char → Bool
  | [] => true
  | c :: cs => isJsSpace c && allSpace cs

/-- Zero-or-more `.` (any char except line terminators) followed by a
literal `==`: JS regex `.*==` applied to a single line. -/
def dotStarEqEq : List Char → Bool
  | '=' :: '=' :: _ => true
  | c :: rest => (c != '\n') && (c != '\r') && dotStarEqEq rest
  | [] => false

/-- The fixed text of the "no changes" marker. -/
def noChangesPat : List Char := "Would make no changes".data

/-- Does `\bWould make no changes\s+$` match starting at this position
(the previous character's word-ness given by `prevWord`)? -/
def matchNoChangesHere (cs : List Char) : Bool :=
  match dropPrefixChars noChangesPat cs with
  | some r => !r.isEmpty && allSpace r
  | none => false

/-- Scan for `\bWould make no changes\s+$` anywhere in the input
(`String.prototype.search` over all start positions). -/
def scanNoChanges : Bool → List Char → Bool
  | _, [] => false
  | prevWord, c :: rest =>
    (!prevWord && matchNoChangesHere (c :: rest)) || scanNoChanges (isWordChar c) rest

/-- `hasAllPackages`: `output.search(/\bWould make no changes\s+$/) !== -1`. -/
def hasAllPackages (output : String) : Bool := scanNoChanges false output.data

/-- Try each allow-listed name followed by `==`; return the remainder
after the first alternative that matches (regex alternation). -/
def matchNameEqEq : List (List Char) → List Char → Option (List Char)
  | [], _ => none
  | n :: ns, cs =>
    match dropPrefixChars (n ++ ('=' :: '=' :: [])) cs with
    | some r => some r
    | none => matchNameEqEq ns cs

/-- One repetition of the manager-upgrade group
`\s+\+ (toml|uv|chardet)==[\d.]+`. -/
def matchManagerGroup (cs : List Char) : Option (List Char) :=
  let (sp, rest1) := cs.span isJsSpace
  if sp.isEmpty then none
  else
    match rest1 with
    | '+' :: ' ' :: rest2 =>
      match matchNameEqEq ["toml".data, "uv".data, "chardet".data] rest2 with
      | some rest3 =>
        let (ver, rest4) := rest3.span isDigitOrDot
        if ver.isEmpty then none else some rest4
      | none => none
    | _ => none

/-- Up to `k` further manager-upgrade groups, then `\s*$`. -/
def managerGroupsThenEnd : Nat → List Char → Bool
  | 0, cs => allSpace cs
  | k + 1, cs =>
    match matchManagerGroup cs with
    | some rest => managerGroupsThenEnd k rest
    | none => allSpace cs

/-- Does the manager-upgrade pattern
`\bWould install [1-3] packages?(\s+\+ (toml|uv|chardet)==[\d.]+){1,3}\s*$`
match at this position? -/
def matchManagerHere (cs : List Char) : Bool :=
  match dropPrefixChars "Would install ".data cs with
  | none => false
  | some r1 =>
    match r1 with
    | [] => false
    | d :: r2 =>
      if d = '1' ∨ d = '2' ∨ d = '3' then
        match dropPrefixChars " package".data r2 with
        | none => false
        | some r3 =>
          let r4 := match r3 with
            | 's' :: t => t
            | _ => r3
          match matchManagerGroup r4 with
          | some rest => managerGroupsThenEnd 2 rest
          | none => false
      else false

/-- Scan for the manager-upgrade pattern anywhere in the input. -/
def scanManager : Bool → List Char → Bool
  | _, [] => false
  | prevWord, c :: rest =>
    (!prevWord && matchManagerHere (c :: rest)) || scanManager (isWordChar c) rest

/-- `isManagerUpgrade`: known ComfyUI-Manager additions (uv, toml, chardet). -/
def isManagerUpgrade (output : String) : Bool := scanManager false output.data

/-- The allow-list of core-upgrade package names, in source order. -/
def coreAllowList : List String :=
  ["aiohttp", "av", "yarl", "comfyui-workflow-templates", "comfyui-embedded-docs",
   "pydantic", "pydantic-core", "pydantic-settings", "annotated-types",
   "typing-inspection", "alembic", "sqlalchemy", "greenlet", "mako", "python-dotenv"]

/-- A removal line of an unrecognised package:
`^\s*- (?!aiohttp|av|...).*==` (negative lookahead is a prefix test). -/
def lineRemovalDisqualifies (line : List Char) : Bool :=
  let (_, r) := line.span isJsSpace
  match r with
  | '-' :: ' ' :: rest =>
    (!(coreAllowList.any fun n => (dropPrefixChars n.data rest).isSome)) && dotStarEqEq rest
  | _ => false

/-- An addition line: `^\s*\+ `. -/
def lineIsAddition (line : List Char) : Bool :=
  let (_, r) := line.span isJsSpace
  match r with
  | '+' :: ' ' :: _ => true
  | _ => false

/-- An addition line of an allow-listed package: `^\s*\+ (aiohttp|av|...)==`. -/
def lineIsAllowedAddition (line : List Char) : Bool :=
  let (_, r) := line.span isJsSpace
  match r with
  | '+' :: ' ' :: rest => coreAllowList.any fun n => (matchNameEqEq [n.data] rest).isSome
  | _ => false

/-- Loop body of `isCoreUpgrade`: reject on an unrecognised removal or a
non-allow-listed addition; count additions; succeed iff some addition. -/
def coreUpgradeLoop : List (List Char) → Nat → Bool
  | [], adds => decide (0 < adds)
  | line :: rest, adds =>
    if lineRemovalDisqualifies line then false
    else if lineIsAddition line then
      if !lineIsAllowedAddition line then false
      else coreUpgradeLoop rest (adds + 1)
    else coreUpgradeLoop rest adds

/-- Split on newline characters, keeping empty segments
(JS `String.prototype.split('\n')` semantics). -/
def splitOnNewline : List Char → List (List Char)
  | [] => [[]]
  | c :: cs =>
    if c = '\n' then [] :: splitOnNewline cs
    else
      match splitOnNewline cs with
      | l :: ls => (c :: l) :: ls
      | [] => [[c]]

/-- `output.split('\n')` as character lists. -/
def splitLines (s : String) : List (List Char) := splitOnNewline s.data

/-- `isCoreUpgrade`: only allow-listed additions and recognised removals. -/
def isCoreUpgrade (output : String) : Bool := coreUpgradeLoop (splitLines output) 0

/-- The outcome of one `runUvAsync` dry-run invocation. -/
structure RunResult where
  exitCode : Option Int
  signal : Option String
  output : String
deriving DecidableEq, Repr

/-- The return values of `hasRequirements` ('OK' | 'error' | 'package-upgrade'). -/
inductive ReqStatus
  | OK
  | error
  | packageUpgrade
deriving DecidableEq, Repr

/-- The errors thrown by `checkRequirements`. -/
inductive ReqError
  | exitFailure (exitCode : Option Int) (signal : Option String)
  | emptyOutput
deriving DecidableEq, Repr

/-- `checkRequirements` inside `hasRequirements`: throws on a nonzero
(or null) exit code, throws a distinct error on empty output. -/
def checkRequirements (run : RunResult) : Except ReqError String :=
  if run.exitCode ≠ some 0 then Except.error (ReqError.exitFailure run.exitCode run.signal)
  else if run.output = "" then Except.error ReqError.emptyOutput
  else Except.ok run.output

/-- `VirtualEnvironment.hasRequirements`, as a function of the two
dry-run invocation outcomes (core manifest first, manager second). -/
def hasRequirements (coreRun managerRun : RunResult) : Except ReqError ReqStatus :=
  match checkRequirements coreRun with
  | Except.error e => Except.error e
  | Except.ok coreOutput =>
    match checkRequirements managerRun with
    | Except.error e => Except.error e
    | Except.ok managerOutput =>
      let coreOk := hasAllPackages coreOutput
      let managerOk := hasAllPackages managerOutput
      let upgradeCore := !coreOk && isCoreUpgrade coreOutput
      let upgradeManager := !managerOk && isManagerUpgrade managerOutput
      if (managerOk && upgradeCore) || (coreOk && upgradeManager) || (upgradeCore && upgradeManager) then
        Except.ok ReqStatus.packageUpgrade
      else if !coreOk || !managerOk then
        Except.ok ReqStatus.packageUpgrade
      else
        Except.ok ReqStatus.OK

example : hasAllPackages "Would make no changes\n" = true := by decide
example : hasAllPackages "Would make no changes" = false := by decide
example : isManagerUpgrade "Would install 2 packages\n + uv==1.0.0\n + toml==1.0.0\n" = true := by
  decide
example : isCoreUpgrade "Would install 1 package\n + aiohttp==3.9.0\n" = true := by decide
example : isCoreUpgrade " - requests==2.0.0\n + aiohttp==3.9.0\n" = false := by decide

/-! ### VirtualEnvironment lifecycle: create, the pty guard, rmdir

State-passing model of the stateful parts of `VirtualEnvironment`. The
mutable state is the lazily-spawned pty handle (`uvPty`), plus
instrumentation: pids killed, operations invoked, telemetry events.
Each external command's outcome is supplied by a `CreateEnv` record. -/

/-- `TorchDeviceType`. -/
inductive TorchDeviceType
  | cpu
  | nvidia
  | mps
  | unsupported
deriving DecidableEq, Repr

/-- Operations of `VirtualEnvironment` observable in the model. -/
inductive VAction
  | venvExistsCheck
  | hasRequirementsCheck
  | installPytorch
  | installComfyUIReqs
  | installManagerReqs
  | verifyImports
  | createVenvPython
  | ensurePipUpgrade
  | installReqsCompiled
deriving DecidableEq, Repr

/-- Errors thrown inside the environment lifecycle. -/
inductive VEnvError
  | pythonImportVerification (msg : String)
  | commandFailed (msg : String)
  | transport (e : ReqError)
deriving DecidableEq, Repr

/-- Mutable state of a `VirtualEnvironment` plus instrumentation. -/
structure UvState where
  /-- The pty handle: `some pid` when the persistent shell is live. -/
  uvPty : Option Nat
  /-- Pids passed to `process.kill`. -/
  killed : List Nat
  /-- Operations invoked, in order. -/
  actions : List VAction
  /-- Telemetry events tracked, in order. -/
  events : List String
deriving DecidableEq, Repr

/-- Outcomes of the external commands used during environment creation. -/
structure CreateEnv where
  selectedDevice : TorchDeviceType
  /-- Pid the pty receives when lazily spawned by `uvPtyInstance`. -/
  ptyPid : Nat
  /-- Result of `exists()` (a filesystem check). -/
  venvExists : Bool
  /-- Result of `hasRequirements()` (runs child processes, not the pty). -/
  hasReqResult : Except VEnvError ReqStatus
  pytorchExit : Int
  comfyReqExit : Int
  managerReqExit : Int
  verifyImportsOk : Bool
  createVenvExit : Int
  ensurePipExit : Int
  compiledInstallExit : Int

/-- A stateful computation that may throw. -/
def UvM (α : Type) : Type := UvState → Except VEnvError α × UvState

/-- Sequencing for `UvM` (exceptions short-circuit). -/
def mBind {α β : Type} (m : UvM α) (f : α → UvM β) : UvM β := fun s =>
  match m s with
  | (Except.ok a, s₁) => f a s₁
  | (Except.error e, s₁) => (Except.error e, s₁)

def mPure {α : Type} (a : α) : UvM α := fun s => (Except.ok a, s)

def mThrow {α : Type} (e : VEnvError) : UvM α := fun s => (Except.error e, s)

/-- Record an invoked operation. -/
def logAction (a : VAction) (s : UvState) : UvState := { s with actions := s.actions ++ [a] }

/-- Record a telemetry event. -/
def trackTel (e : String) (s : UvState) : UvState := { s with events := s.events ++ [e] }

/-- `uvPtyInstance`: returns the live pty, spawning it if absent. -/
def touchPty (env : CreateEnv) (s : UvState) : UvState :=
  { s with uvPty := some (s.uvPty.getD env.ptyPid) }

/-- A command run through the managed pty shell (`runUvCommandAsync`):
spawns the pty if needed, then fails iff the exit code is nonzero. -/
def runUvPtyCommand (env : CreateEnv) (a : VAction) (exit : Int) (failMsg : String) : UvM Unit :=
  fun s =>
    let s := touchPty env (logAction a s)
    if exit = 0 then (Except.ok (), s) else (Except.error (VEnvError.commandFailed failMsg), s)

/-- `createVenvWithPython`: uv venv via the pty; throws on nonzero exit. -/
def createVenvWithPython (env : CreateEnv) : UvM Unit :=
  runUvPtyCommand env VAction.createVenvPython env.createVenvExit
    "Failed to create virtual environment"

/-- `ensurePip`: runs the venv's python (a child process, not the pty);
throws on nonzero exit. -/
def ensurePip (env : CreateEnv) : UvM Unit := fun s =>
  let s := logAction VAction.ensurePipUpgrade s
  if env.ensurePipExit = 0 then (Except.ok (), s)
  else (Except.error (VEnvError.commandFailed "Failed to upgrade pip"), s)

/-- `installPytorch`: uv pip install via the pty. -/
def installPytorch (env : CreateEnv) : UvM Unit :=
  runUvPtyCommand env VAction.installPytorch env.pytorchExit "Failed to install PyTorch"

/-- `installComfyUIRequirements`: uv pip install via the pty. -/
def installComfyUIRequirements (env : CreateEnv) : UvM Unit :=
  runUvPtyCommand env VAction.installComfyUIReqs env.comfyReqExit
    "Failed to install ComfyUI requirements.txt"

/-- `installComfyUIManagerRequirements`: uv pip install via the pty. -/
def installComfyUIManagerRequirements (env : CreateEnv) : UvM Unit :=
  runUvPtyCommand env VAction.installManagerReqs env.managerReqExit
    "Failed to install ComfyUI-Manager requirements.txt"

/-- `manualInstall`: PyTorch, then core, then manager requirements. -/
def manualInstall (env : CreateEnv) : UvM Unit :=
  mBind (installPytorch env) fun _ =>
    mBind (installComfyUIRequirements env) fun _ =>
      installComfyUIManagerRequirements env

/-- `installRequirements`: try the compiled manifest (pty command); on a
nonzero exit, fall back to `manualInstall` instead of throwing. -/
def installRequirements (env : CreateEnv) : UvM Unit := fun s =>
  let s := touchPty env (logAction VAction.installReqsCompiled s)
  if env.compiledInstallExit = 0 then (Except.ok (), s) else manualInstall env s

/-- `exists()`: venv directory accessible and non-empty. -/
def venvExistsOp (env : CreateEnv) : UvM Bool := fun s =>
  (Except.ok env.venvExists, logAction VAction.venvExistsCheck s)

/-- `hasRequirements()` as invoked from `createEnvironment` (uses child
processes; its transport errors propagate as exceptions). -/
def hasRequirementsOp (env : CreateEnv) : UvM ReqStatus := fun s =>
  (env.hasReqResult, logAction VAction.hasRequirementsCheck s)

/-- `verifyPythonImports()`. -/
def verifyPythonImportsOp (env : CreateEnv) : UvM Bool := fun s =>
  (Except.ok env.verifyImportsOk, logAction VAction.verifyImports s)

/-- Track a telemetry event as a `UvM` step. -/
def trackTelM (e : String) : UvM Unit := fun s => (Except.ok (), trackTel e s)

def evCreateStart : String := "install_flow:virtual_environment_create_start"
def evCreateEnd : String := "install_flow:virtual_environment_create_end"
def evCreateError : String := "install_flow:virtual_environment_create_error"

/-- The `try` block of `createEnvironment`: repair an existing venv or
create one from scratch. -/
def createEnvironmentBody (env : CreateEnv) : UvM Unit :=
  mBind (venvExistsOp env) fun ex =>
    if ex then
      mBind (hasRequirementsOp env) fun st =>
        mBind (if st = ReqStatus.OK then mPure () else manualInstall env) fun _ =>
          mBind (verifyPythonImportsOp env) fun importsOk =>
            if importsOk then trackTelM evCreateEnd
            else
              mThrow (VEnvError.pythonImportVerification
                "We were unable to verify the state of your Python virtual environment.")
    else
      mBind (createVenvWithPython env) fun _ =>
        mBind (ensurePip env) fun _ =>
          mBind (installRequirements env) fun _ => trackTelM evCreateEnd

/-- `createEnvironment`: skip entirely for the 'unsupported' device;
otherwise run the try block inside a catch that tracks telemetry and
rethrows. -/
def createEnvironment (env : CreateEnv) : UvM Unit := fun s₀ =>
  let s₀ := trackTel evCreateStart s₀
  if env.selectedDevice = TorchDeviceType.unsupported then
    (Except.ok (), trackTel evCreateEnd s₀)
  else
    match createEnvironmentBody env s₀ with
    | (Except.ok a, s) => (Except.ok a, s)
    | (Except.error e, s) => (Except.error e, trackTel evCreateError s)

/-- The `finally` block shared by `create` and `#using`: if a pty is
live (truthy pid), kill it and clear the handle. -/
def ptyCleanup (s : UvState) : UvState :=
  match s.uvPty with
  | some pid => if pid ≠ 0 then { s with killed := s.killed ++ [pid], uvPty := none } else s
  | none => s

/-- `VirtualEnvironment.create`: `createEnvironment` guarded by the
pty-teardown `finally` block. -/
def create (env : CreateEnv) : UvM Unit := fun s =>
  let (r, s₁) := createEnvironment env s
  (r, ptyCleanup s₁)

/-- The `#using` helper: run the command, then always tear down the pty. -/
def usingPty {α : Type} (body : UvM α) : UvM α := fun s =>
  let (r, s₁) := body s
  (r, ptyCleanup s₁)

/-- `createVenv` (repair entry): `#using(createVenvWithPython)`, with
exceptions converted to `false`. -/
def createVenvRepair (env : CreateEnv) : UvM Bool := fun s =>
  match usingPty (createVenvWithPython env) s with
  | (Except.ok _, s₁) => (Except.ok true, s₁)
  | (Except.error _, s₁) => (Except.ok false, s₁)

/-- `upgradePip`: `#using(ensurePip)`, with exceptions converted to `false`. -/
def upgradePip (env : CreateEnv) : UvM Bool := fun s =>
  match usingPty (ensurePip env) s with
  | (Except.ok _, s₁) => (Except.ok true, s₁)
  | (Except.error _, s₁) => (Except.ok false, s₁)

/-- `reinstallRequirements`: `#using(manualInstall)`; on failure recreate
the venv, re-bootstrap pip, and retry the manual install once. -/
def reinstallRequirements (env : CreateEnv) : UvM Bool := fun s =>
  match usingPty (manualInstall env) s with
  | (Except.ok _, s₁) => (Except.ok true, s₁)
  | (Except.error _, s₁) =>
    match createVenvRepair env s₁ with
    | (Except.ok created, s₂) =>
      if !created then (Except.ok false, s₂)
      else
        match upgradePip env s₂ with
        | (Except.ok pipEnsured, s₃) =>
          if !pipEnsured then (Except.ok false, s₃)
          else
            match usingPty (manualInstall env) s₃ with
            | (Except.ok _, s₄) => (Except.ok true, s₄)
            | (Except.error e, s₄) => (Except.error e, s₄)
        | (Except.error e, s₃) => (Except.error e, s₃)
    | (Except.error e, s₂) => (Except.error e, s₂)

/-- `#rmdir(dir, ...)`: poll accessibility; if accessible try `rm`,
returning `false` on a thrown error; resolve `true` otherwise. The
second component records whether a removal was attempted. -/
def rmdirOp (accessible : Bool) (rmResult : Except String Unit) : Bool × Bool :=
  if accessible then
    match rmResult with
    | Except.ok _ => (true, true)
    | Except.error _ => (false, true)
  else (true, false)

/-- Filesystem outcomes for `removeVenvDirectory`. -/
structure RemoveEnv where
  /-- `pathAccessible(venvPath)` -/
  venvAccessible : Bool
  /-- Result of `rm(venvPath, {recursive: true})` -/
  rmVenvResult : Except String Unit

/-- `removeVenvDirectory`: `#rmdir(this.venvPath, '.venv directory')`. -/
def removeVenvDirectory (env : RemoveEnv) : Bool × Bool :=
  rmdirOp env.venvAccessible env.rmVenvResult

/-! ### ComfyInstallation: the validation sweep -/

/-- Status tokens of the validation report fields. -/
inductive VStatus
  | OK
  | error
  | warning
  | skipped
deriving DecidableEq, Repr

/-- `DesktopInstallState`: 'started' | 'installed' | 'upgraded'. -/
inductive DesktopInstallState
  | started
  | installed
  | upgraded
deriving DecidableEq, Repr

/-- `InstallValidation`: the validation report. `none` models a property
not (yet) present on the object. -/
structure InstallValidation where
  inProgress : Bool
  installState : Option DesktopInstallState
  basePath : Option VStatus := none
  venvDirectory : Option VStatus := none
  pythonInterpreter : Option VStatus := none
  uv : Option VStatus := none
  pythonPackages : Option VStatus := none
  upgradePackages : Option VStatus := none
  git : Option VStatus := none
  vcRedist : Option VStatus := none
  unsafeBasePath : Option Bool := none
  unsafeBasePathReason : Option RestrictedPathType := none
  error : Option String := none
deriving DecidableEq, Repr

/-- A JavaScript property value as seen by `Object.values`. -/
inductive JsValue
  | bool (b : Bool)
  | str (s : String)
  | undef
deriving DecidableEq, Repr

def statusStr : VStatus → String
  | VStatus.OK => "OK"
  | VStatus.error => "error"
  | VStatus.warning => "warning"
  | VStatus.skipped => "skipped"

def stateStr : DesktopInstallState → String
  | DesktopInstallState.started => "started"
  | DesktopInstallState.installed => "installed"
  | DesktopInstallState.upgraded => "upgraded"

def reasonStr : RestrictedPathType → String
  | RestrictedPathType.appInstallDir => "appInstallDir"
  | RestrictedPathType.updaterCache => "updaterCache"
  | RestrictedPathType.oneDrive => "oneDrive"

/-- Present optional properties contribute their value; absent ones
contribute nothing. -/
def optVals {α : Type} (f : α → JsValue) : Option α → List JsValue
  | some a => [f a]
  | none => []

/-- `Object.values(this.validation)`. -/
def InstallValidation.jsValues (v : InstallValidation) : List JsValue :=
  [JsValue.bool v.inProgress,
   (match v.installState with
    | some st => JsValue.str (stateStr st)
    | none => JsValue.undef)]
  ++ optVals (fun st => JsValue.str (statusStr st)) v.basePath
  ++ optVals (fun st => JsValue.str (statusStr st)) v.venvDirectory
  ++ optVals (fun st => JsValue.str (statusStr st)) v.pythonInterpreter
  ++ optVals (fun st => JsValue.str (statusStr st)) v.uv
  ++ optVals (fun st => JsValue.str (statusStr st)) v.pythonPackages
  ++ optVals (fun st => JsValue.str (statusStr st)) v.upgradePackages
  ++ optVals (fun st => JsValue.str (statusStr st)) v.git
  ++ optVals (fun st => JsValue.str (statusStr st)) v.vcRedist
  ++ optVals JsValue.bool v.unsafeBasePath
  ++ optVals (fun t => JsValue.str (reasonStr t)) v.unsafeBasePathReason
  ++ optVals JsValue.str v.error

/-- `hasIssues`: `Object.values(this.validation).includes('error')`. -/
def InstallValidation.hasIssues (v : InstallValidation) : Bool :=
  v.jsValues.contains (JsValue.str "error")

/-- `isValid`: `this.state === 'installed' && !this.hasIssues`. -/
def isValidInstallation (state : Option DesktopInstallState) (v : InstallValidation) : Bool :=
  decide (state = some DesktopInstallState.installed) && !v.hasIssues

/-- Environment for `ComfyInstallation.validate`: outcomes of every
external check, in source order. -/
structure InstallEnv where
  platform : Platform
  /-- `useDesktopConfig().get('basePath')` -/
  configBasePath : Option String
  /-- `pathAccessible(basePath)` -/
  basePathAccessible : Bool
  /-- `evaluatePathRestrictions(basePath)` -/
  evalRestrictions : String → PathRestrictionFlags
  /-- `ComfyServerConfig.exists()` -/
  serverConfigExists : Bool
  /-- `venv.exists()` -/
  venvExists : Bool
  /-- `canExecute(venv.pythonInterpreterPath)` -/
  pythonExecutable : Bool
  /-- `canExecute(venv.uvPath)` -/
  uvExecutable : Bool
  /-- `venv.hasRequirements()` -/
  hasRequirementsResult : Except ReqError ReqStatus
  /-- `canExecuteShellCommand('git --help')` -/
  gitOk : Bool
  /-- `pathAccessible(vcruntime140.dll path)` -/
  vcRedistAccessible : Bool

/-- Step 1 of validate: legacy-upgrade detection (config file present
but no recorded state). -/
def legacyUpgradePhase (env : InstallEnv) (v : InstallValidation) : InstallValidation :=
  if v.installState = none ∧ env.serverConfigExists then
    { v with installState := some DesktopInstallState.upgraded }
  else v

/-- Steps 2-3 of validate: base path accessibility and restriction
evaluation. -/
def basePathPhase (env : InstallEnv) (v : InstallValidation) : InstallValidation :=
  match env.configBasePath with
  | some bp =>
    if bp ≠ "" ∧ env.basePathAccessible then
      let flags := env.evalRestrictions bp
      if flags.isInsideAppInstallDir || flags.isInsideUpdaterCache || flags.isOneDrive then
        { v with
          basePath := some VStatus.error
          unsafeBasePath := some true
          unsafeBasePathReason :=
            if flags.isInsideAppInstallDir then some RestrictedPathType.appInstallDir
            else if flags.isInsideUpdaterCache then some RestrictedPathType.updaterCache
            else if flags.isOneDrive then some RestrictedPathType.oneDrive
            else none }
      else { v with basePath := some VStatus.OK }
    else { v with basePath := some VStatus.error }
  | none => { v with basePath := some VStatus.error }

/-- Step 4 of validate: environment checks, only when the base path was
valid and safe. -/
def envChecksPhase (env : InstallEnv) (v : InstallValidation) : InstallValidation :=
  if v.basePath ≠ some VStatus.error then
    if env.venvExists then
      let v := { v with venvDirectory := some VStatus.OK }
      let v := { v with
        pythonInterpreter := some (if env.pythonExecutable then VStatus.OK else VStatus.error) }
      if env.uvExecutable then
        let v := { v with uv := some VStatus.OK }
        match env.hasRequirementsResult with
        | Except.ok ReqStatus.packageUpgrade =>
          { v with pythonPackages := some VStatus.OK, upgradePackages := some VStatus.warning }
        | Except.ok ReqStatus.OK => { v with pythonPackages := some VStatus.OK }
        | Except.ok ReqStatus.error => { v with pythonPackages := some VStatus.error }
        | Except.error _ => { v with pythonPackages := some VStatus.error }
      else { v with uv := some VStatus.error }
    else { v with venvDirectory := some VStatus.error }
  else v

/-- Steps 5-6 of validate: git, the platform redistributable, completion. -/
def finishPhase (env : InstallEnv) (v : InstallValidation) : InstallValidation :=
  let v := { v with git := some (if env.gitOk then VStatus.OK else VStatus.error) }
  let v :=
    if env.platform = Platform.win32 then
      { v with vcRedist := some (if env.vcRedistAccessible then VStatus.OK else VStatus.error) }
    else { v with vcRedist := some VStatus.skipped }
  { v with inProgress := false }

/-- `ComfyInstallation.validate()`: builds the validation report field by
field. `state` is the recorded installation state (`this.state`). -/
def validateInstallation (env : InstallEnv) (state : Option DesktopInstallState) :
    InstallValidation :=
  finishPhase env (envChecksPhase env (basePathPhase env
    (legacyUpgradePhase env { inProgress := true, installState := state })))

/-! ### Helper lemmas for the path validator -/

theorem restrictionDrivePhase_fields (env : PathEnv) (inputPath : String)
    (r : PathValidationResult) :
    (restrictionDrivePhase env inputPath r).pathExists = r.pathExists ∧
    (restrictionDrivePhase env inputPath r).cannotWrite = r.cannotWrite ∧
    (restrictionDrivePhase env inputPath r).requiredSpace = r.requiredSpace := by
  unfold restrictionDrivePhase
  dsimp only
  repeat' split
  all_goals exact ⟨rfl, rfl, rfl⟩

theorem validateTryBody_requiredSpace (env : PathEnv) (inputPath : String)
    (r : PathValidationResult) :
    (validateTryBody env inputPath r).requiredSpace = r.requiredSpace := by
  have h := (restrictionDrivePhase_fields env inputPath r).2.2
  unfold validateTryBody
  dsimp only
  repeat' split
  all_goals simp_all

theorem validateTryBody_cannotWrite (env : PathEnv) (inputPath : String)
    (r : PathValidationResult) (pe ex : Bool)
    (hpe : env.parentExists = Except.ok pe)
    (hex : existsOutcome env r.pathExists = Except.ok ex) :
    (validateTryBody env inputPath r).cannotWrite =
      (if env.parentWritable then r.cannotWrite else true) := by
  obtain ⟨hpx, hcw, -⟩ := restrictionDrivePhase_fields env inputPath r
  unfold validateTryBody
  dsimp only
  rw [hpe]
  dsimp only
  repeat' split
  all_goals simp_all

theorem validateTryBody_pathExists (env : PathEnv) (inputPath : String)
    (r : PathValidationResult) (pe ex : Bool)
    (hpe : env.parentExists = Except.ok pe)
    (hex : existsOutcome env r.pathExists = Except.ok ex) :
    (validateTryBody env inputPath r).pathExists = ex := by
  obtain ⟨hpx, hcw, -⟩ := restrictionDrivePhase_fields env inputPath r
  unfold validateTryBody
  dsimp only
  rw [hpe]
  dsimp only
  repeat' split
  all_goals simp_all

theorem reachesWriteProbe_ok (env : PathEnv) (prior : Bool)
    (h : reachesWriteProbe env = true) :
    ∃ pe ex, env.parentExists = Except.ok pe ∧ existsOutcome env prior = Except.ok ex := by
  unfold reachesWriteProbe at h
  unfold existsOutcome
  cases hpe : env.parentExists with
  | error e => rw [hpe] at h; simp [Except.isOk, Except.toBool] at h
  | ok pe =>
    refine ⟨pe, ?_⟩
    rw [hpe] at h
    cases hie : env.inputExists with
    | error e => rw [hie] at h; simp at h
    | ok ex =>
      cases ex
      · exact ⟨prior, rfl, rfl⟩
      · rw [hie] at h
        cases hdir : env.statIsDirectory with
        | error e => rw [hdir] at h; simp at h
        | ok isDir =>
          cases isDir
          · exact ⟨true, rfl, rfl⟩
          · rw [hdir] at h
            cases hcount : env.readdirCount with
            | error e => rw [hcount] at h; simp [Except.isOk, Except.toBool] at h
            | ok n => exact ⟨decide (0 < n), rfl, rfl⟩

theorem validateInstallPath_cannotWrite_eq (env : PathEnv) (inputPath : String)
    (bypassSpaceCheck : Bool) :
    (validateInstallPath env inputPath bypassSpaceCheck).cannotWrite =
      (validateTryBody env inputPath (initialPathResult env.platform)).cannotWrite := rfl

theorem validateInstallPath_pathExists_eq (env : PathEnv) (inputPath : String)
    (bypassSpaceCheck : Bool) :
    (validateInstallPath env inputPath bypassSpaceCheck).pathExists =
      (validateTryBody env inputPath (initialPathResult env.platform)).pathExists := rfl

/-! ### Claim theorems: install path validator -/

/-- **C1**: for every input path and bypassSpaceCheck flag,
validateInstallPath returns isValid = NOT(cannotWrite OR parentMissing OR
(freeSpace ≥ 0 AND freeSpace < requiredSpace AND NOT bypassSpaceCheck) OR
error present OR isOneDrive OR isInsideAppInstallDir OR
isInsideUpdaterCache); isNonDefaultDrive does not occur in the formula,
and a non-writable path (even with low free space and bypass=true) still
yields isValid=false with cannotWrite=true. -/
theorem validateInstallPath_isValid_formula (env : PathEnv) (inputPath : String)
    (bypassSpaceCheck : Bool) (r : PathValidationResult)
    (hr : r = validateInstallPath env inputPath bypassSpaceCheck) :
    (r.isValid =
      !(r.cannotWrite || r.parentMissing ||
        (decide (0 ≤ r.freeSpace) && decide (r.freeSpace < (r.requiredSpace : Int)) &&
          !bypassSpaceCheck) ||
        r.error.isSome || r.isOneDrive || r.isInsideAppInstallDir || r.isInsideUpdaterCache))
    ∧ (reachesWriteProbe env = true → env.parentWritable = false →
        r.isValid = false ∧ r.cannotWrite = true) := by
  have hformula : r.isValid =
      !(r.cannotWrite || r.parentMissing ||
        (decide (0 ≤ r.freeSpace) && decide (r.freeSpace < (r.requiredSpace : Int)) &&
          !bypassSpaceCheck) ||
        r.error.isSome || r.isOneDrive || r.isInsideAppInstallDir || r.isInsideUpdaterCache) := by
    subst hr
    unfold validateInstallPath
    dsimp only
    rw [validateTryBody_requiredSpace]
    have haux : ∀ b p q : Bool, (!b && p && q) = (p && q && !b) := by decide
    rw [haux]
    rfl
  refine ⟨hformula, fun hreach hwrit => ?_⟩
  obtain ⟨pe, ex, hpe, hex⟩ :=
    reachesWriteProbe_ok env (initialPathResult env.platform).pathExists hreach
  have hcw : r.cannotWrite = true := by
    rw [hr, validateInstallPath_cannotWrite_eq,
      validateTryBody_cannotWrite env inputPath _ pe ex hpe hex, hwrit]
    rfl
  refine ⟨?_, hcw⟩
  rw [hformula, hcw]
  rfl

/-- Concrete environment witnessing C1: a non-writable parent, no
restriction flags, low free space, bypass requested. -/
def c1Env : PathEnv where
  platform := Platform.darwin
  systemDrive := none
  evalRestrictions := fun _ =>
    { normalizedPath := some "/users/me/data"
      isInsideAppInstallDir := false
      isInsideUpdaterCache := false
      isOneDrive := false }
  parentExists := Except.ok true
  inputExists := Except.ok false
  statIsDirectory := Except.ok false
  readdirCount := Except.ok 0
  parentWritable := false
  fsSize := Except.ok [⟨"/", 100⟩]
  mountMatches := fun _ => true

/-- Witness for C1 at a concrete input. -/
theorem validateInstallPath_isValid_formula_witness :
    reachesWriteProbe c1Env = true ∧ c1Env.parentWritable = false ∧
    (validateInstallPath c1Env "/Users/me/data" true).isValid = false ∧
    (validateInstallPath c1Env "/Users/me/data" true).cannotWrite = true := by
  have h := (validateInstallPath_isValid_formula c1Env "/Users/me/data" true _ rfl).2
    (by rfl) (by rfl)
  exact ⟨by rfl, by rfl, h.1, h.2⟩

/-- **C7**: in validateInstallPath, a present directory with no entries
yields exists=false; a present directory with at least one entry yields
exists=true; a present non-directory path yields exists=true; an absent
path yields exists=false. -/
theorem validateInstallPath_exists_semantics (env : PathEnv) (inputPath : String)
    (bypassSpaceCheck : Bool) (pe : Bool) (hpe : env.parentExists = Except.ok pe) :
    (env.inputExists = Except.ok true → env.statIsDirectory = Except.ok true →
      env.readdirCount = Except.ok 0 →
      (validateInstallPath env inputPath bypassSpaceCheck).pathExists = false)
    ∧ (∀ n : Nat, env.inputExists = Except.ok true → env.statIsDirectory = Except.ok true →
        env.readdirCount = Except.ok (n + 1) →
        (validateInstallPath env inputPath bypassSpaceCheck).pathExists = true)
    ∧ (env.inputExists = Except.ok true → env.statIsDirectory = Except.ok false →
        (validateInstallPath env inputPath bypassSpaceCheck).pathExists = true)
    ∧ (env.inputExists = Except.ok false →
        (validateInstallPath env inputPath bypassSpaceCheck).pathExists = false) := by
  refine ⟨?_, ?_, ?_, ?_⟩
  · intro hie hdir hcount
    rw [validateInstallPath_pathExists_eq]
    exact validateTryBody_pathExists env inputPath _ pe false hpe
      (by unfold existsOutcome; rw [hie, hdir, hcount]; rfl)
  · intro n hie hdir hcount
    rw [validateInstallPath_pathExists_eq]
    exact validateTryBody_pathExists env inputPath _ pe true hpe
      (by unfold existsOutcome; rw [hie, hdir, hcount]; simp)
  · intro hie hdir
    rw [validateInstallPath_pathExists_eq]
    exact validateTryBody_pathExists env inputPath _ pe true hpe
      (by unfold existsOutcome; rw [hie, hdir])
  · intro hie
    rw [validateInstallPath_pathExists_eq]
    exact validateTryBody_pathExists env inputPath _ pe false hpe
      (by unfold existsOutcome; rw [hie]; rfl)

/-- Concrete environment witnessing C7: a present, empty directory. -/
def c7Env : PathEnv where
  platform := Platform.darwin
  systemDrive := none
  evalRestrictions := fun _ =>
    { normalizedPath := some "/users/me/empty"
      isInsideAppInstallDir := false
      isInsideUpdaterCache := false
      isOneDrive := false }
  parentExists := Except.ok true
  inputExists := Except.ok true
  statIsDirectory := Except.ok true
  readdirCount := Except.ok 0
  parentWritable := true
  fsSize := Except.ok []
  mountMatches := fun _ => false

/-- Witness for C7 at a concrete input. -/
theorem validateInstallPath_exists_semantics_witness :
    c7Env.inputExists = Except.ok true ∧ c7Env.statIsDirectory = Except.ok true ∧
    c7Env.readdirCount = Except.ok 0 ∧
    (validateInstallPath c7Env "/Users/me/empty" false).pathExists = false := by
  refine ⟨by rfl, by rfl, by rfl, ?_⟩
  exact (validateInstallPath_exists_semantics c7Env "/Users/me/empty" false true (by rfl)).1
    (by rfl) (by rfl) (by rfl)

/-! ### Claim theorems: hasRequirements -/

theorem hasAllPackages_empty : hasAllPackages "" = false := by decide

/-- When both dry-runs exit 0 with non-empty output, `hasRequirements`
resolves to OK iff both outputs report no changes, else package-upgrade. -/
theorem hasRequirements_ok_characterisation (coreRun managerRun : RunResult)
    (hce : coreRun.exitCode = some 0) (hme : managerRun.exitCode = some 0)
    (hcne : coreRun.output ≠ "") (hmne : managerRun.output ≠ "") :
    hasRequirements coreRun managerRun =
      Except.ok (if hasAllPackages coreRun.output && hasAllPackages managerRun.output
        then ReqStatus.OK else ReqStatus.packageUpgrade) := by
  unfold hasRequirements checkRequirements
  simp only [hce, hme, hcne, hmne, ne_eq, not_true_eq_false, if_false, if_neg, ite_false]
  cases hasAllPackages coreRun.output <;> cases hasAllPackages managerRun.output <;>
    cases isCoreUpgrade coreRun.output <;> cases isManagerUpgrade managerRun.output <;>
      simp_all

/-- A disqualifying removal line anywhere makes the core-upgrade loop
return false. -/
theorem coreUpgradeLoop_disqualified (lines : List (List Char)) (adds : Nat)
    (h : ∃ l ∈ lines, lineRemovalDisqualifies l = true) :
    coreUpgradeLoop lines adds = false := by
  induction lines generalizing adds with
  | nil => simp at h
  | cons line rest ih =>
    obtain ⟨l, hl, hdisq⟩ := h
    unfold coreUpgradeLoop
    by_cases hd : lineRemovalDisqualifies line = true
    · simp [hd]
    · have hrest : ∃ l ∈ rest, lineRemovalDisqualifies l = true := by
        rcases List.mem_cons.mp hl with h1 | h1
        · subst h1; exact absurd hdisq hd
        · exact ⟨l, h1, hdisq⟩
      have h1 := ih (adds + 1) hrest
      have h2 := ih adds hrest
      simp only [Bool.not_eq_true] at hd
      simp [hd, h1, h2]

/-- **C3**: hasRequirements throws when either dry-run invocation exits
nonzero, throws a distinct empty-output error when an invocation exits 0
with empty output, and for every pair of non-empty exit-0 outputs never
throws and never returns the 'error' status: any diff at all yields
'package-upgrade'. -/
theorem hasRequirements_transport_semantics (coreRun managerRun : RunResult) :
    (coreRun.exitCode ≠ some 0 →
      hasRequirements coreRun managerRun =
        Except.error (ReqError.exitFailure coreRun.exitCode coreRun.signal))
    ∧ (coreRun.exitCode = some 0 → coreRun.output = "" →
        hasRequirements coreRun managerRun = Except.error ReqError.emptyOutput)
    ∧ (coreRun.exitCode = some 0 → coreRun.output ≠ "" → managerRun.exitCode ≠ some 0 →
        hasRequirements coreRun managerRun =
          Except.error (ReqError.exitFailure managerRun.exitCode managerRun.signal))
    ∧ (coreRun.exitCode = some 0 → coreRun.output ≠ "" → managerRun.exitCode = some 0 →
        managerRun.output = "" →
        hasRequirements coreRun managerRun = Except.error ReqError.emptyOutput)
    ∧ (coreRun.exitCode = some 0 → managerRun.exitCode = some 0 → coreRun.output ≠ "" →
        managerRun.output ≠ "" →
        hasRequirements coreRun managerRun =
          Except.ok (if hasAllPackages coreRun.output && hasAllPackages managerRun.output
            then ReqStatus.OK else ReqStatus.packageUpgrade)
        ∧ ((hasAllPackages coreRun.output && hasAllPackages managerRun.output) = false →
            hasRequirements coreRun managerRun = Except.ok ReqStatus.packageUpgrade)
        ∧ hasRequirements coreRun managerRun ≠ Except.ok ReqStatus.error) := by
  refine ⟨?_, ?_, ?_, ?_, ?_⟩
  · intro h
    unfold hasRequirements checkRequirements
    simp [h]
  · intro hce hco
    unfold hasRequirements checkRequirements
    simp [hce, hco]
  · intro hce hcne hm
    unfold hasRequirements checkRequirements
    simp [hce, hcne, hm]
  · intro hce hcne hme hmo
    unfold hasRequirements checkRequirements
    simp [hce, hcne, hme, hmo]
  · intro hce hme hcne hmne
    have h := hasRequirements_ok_characterisation coreRun managerRun hce hme hcne hmne
    refine ⟨h, fun hnot => ?_, ?_⟩
    · rw [h]
      simp [hnot]
    · rw [h]
      intro hcontra
      rcases Except.ok.inj hcontra with h1
      revert h1
      split <;> simp

/-- Witness for C3 at a concrete input (a nonzero exit code). -/
theorem hasRequirements_transport_semantics_witness :
    (⟨some 1, none, ""⟩ : RunResult).exitCode ≠ some 0 ∧
    hasRequirements ⟨some 1, none, ""⟩ ⟨some 0, none, "x"⟩ =
      Except.error (ReqError.exitFailure (some 1) none) := by
  refine ⟨by decide, ?_⟩
  exact (hasRequirements_transport_semantics ⟨some 1, none, ""⟩ ⟨some 0, none, "x"⟩).1
    (by decide)

/-- **C5**: when both dry-run outputs report "Would make no changes",
hasRequirements resolves to OK. -/
theorem hasRequirements_bothNoChanges_OK (coreRun managerRun : RunResult)
    (hce : coreRun.exitCode = some 0) (hme : managerRun.exitCode = some 0)
    (hc : hasAllPackages coreRun.output = true) (hm : hasAllPackages managerRun.output = true) :
    hasRequirements coreRun managerRun = Except.ok ReqStatus.OK := by
  have hcne : coreRun.output ≠ "" := by
    intro h
    rw [h, hasAllPackages_empty] at hc
    exact absurd hc (by decide)
  have hmne : managerRun.output ≠ "" := by
    intro h
    rw [h, hasAllPackages_empty] at hm
    exact absurd hm (by decide)
  rw [hasRequirements_ok_characterisation coreRun managerRun hce hme hcne hmne, hc, hm]
  rfl

/-- Witness for C5 at a concrete input. -/
theorem hasRequirements_bothNoChanges_OK_witness :
    hasAllPackages "Would make no changes\n" = true ∧
    hasRequirements ⟨some 0, none, "Would make no changes\n"⟩
      ⟨some 0, none, "Would make no changes\n"⟩ = Except.ok ReqStatus.OK := by
  refine ⟨by decide, ?_⟩
  exact hasRequirements_bothNoChanges_OK ⟨some 0, none, "Would make no changes\n"⟩
    ⟨some 0, none, "Would make no changes\n"⟩ rfl rfl (by decide) (by decide)

/-- **C4**: the uv+toml manager diff with a no-changes core resolves to
'package-upgrade'; any manifest output containing an unrecognised
removal line has internal upgrade-classification false, and the overall
result (for non-empty exit-0 outputs where that manifest reports
changes) is still 'package-upgrade', not an error. -/
theorem hasRequirements_upgrade_scenarios :
    hasRequirements ⟨some 0, none, "Would make no changes\n"⟩
        ⟨some 0, none, "Would install 2 packages\n + uv==1.0.0\n + toml==1.0.0\n"⟩ =
      Except.ok ReqStatus.packageUpgrade
    ∧ ∀ out mgrOut : String,
        (∃ line ∈ splitLines out, lineRemovalDisqualifies line = true) →
        isCoreUpgrade out = false
        ∧ (hasAllPackages out = false → out ≠ "" → mgrOut ≠ "" →
            hasRequirements ⟨some 0, none, out⟩ ⟨some 0, none, mgrOut⟩ =
              Except.ok ReqStatus.packageUpgrade) := by
  constructor
  · rfl
  · intro out mgrOut hrem
    refine ⟨coreUpgradeLoop_disqualified (splitLines out) 0 hrem, ?_⟩
    intro hco hone hmne
    rw [hasRequirements_ok_characterisation ⟨some 0, none, out⟩ ⟨some 0, none, mgrOut⟩
      rfl rfl hone hmne]
    simp only [hco]
    rfl

/-- Witness for C4 at a concrete input. -/
theorem hasRequirements_upgrade_scenarios_witness :
    (∃ line ∈ splitLines "Would install 2 packages\n + aiohttp==3.9.0\n - requests==2.0.0\n",
      lineRemovalDisqualifies line = true) ∧
    isCoreUpgrade "Would install 2 packages\n + aiohttp==3.9.0\n - requests==2.0.0\n" = false ∧
    hasRequirements
      ⟨some 0, none, "Would install 2 packages\n + aiohttp==3.9.0\n - requests==2.0.0\n"⟩
      ⟨some 0, none, "Would make no changes\n"⟩ = Except.ok ReqStatus.packageUpgrade := by
  have h := (hasRequirements_upgrade_scenarios).2
    "Would install 2 packages\n + aiohttp==3.9.0\n - requests==2.0.0\n"
    "Would make no changes\n" (by decide)
  exact ⟨by decide, h.1, h.2 (by decide) (by decide) (by decide)⟩

/-! ### Claim theorems: removeVenvDirectory -/

/-- **C9**: removeVenvDirectory is idempotent: when the venv directory is
absent it attempts no removal and still resolves true; it resolves false
exactly when the directory is accessible and the removal throws. -/
theorem removeVenvDirectory_idempotent (env : RemoveEnv) :
    (env.venvAccessible = false → removeVenvDirectory env = (true, false))
    ∧ ((removeVenvDirectory env).1 = false ↔
        env.venvAccessible = true ∧ ∃ e, env.rmVenvResult = Except.error e) := by
  constructor
  · intro h
    unfold removeVenvDirectory rmdirOp
    simp [h]
  · unfold removeVenvDirectory rmdirOp
    cases ha : env.venvAccessible
    · simp
    · cases hrm : env.rmVenvResult with
      | error e => simp
      | ok u => simp

/-- Witness for C9 at a concrete input (absent directory). -/
theorem removeVenvDirectory_idempotent_witness :
    ({ venvAccessible := false, rmVenvResult := Except.ok () } : RemoveEnv).venvAccessible
      = false ∧
    removeVenvDirectory { venvAccessible := false, rmVenvResult := Except.ok () }
      = (true, false) := by
  refine ⟨rfl, ?_⟩
  exact (removeVenvDirectory_idempotent
    { venvAccessible := false, rmVenvResult := Except.ok () }).1 rfl

/-! ### Claim theorems: installation validation sweep -/

theorem legacyUpgradePhase_eq (env : InstallEnv) (v : InstallValidation) :
    legacyUpgradePhase env v =
      { v with installState := (legacyUpgradePhase env v).installState } := by
  unfold legacyUpgradePhase
  split <;> rfl

theorem basePathPhase_unsafe (env : InstallEnv) (v : InstallValidation) (bp : String)
    (hbp : env.configBasePath = some bp) (hne : bp ≠ "")
    (hacc : env.basePathAccessible = true)
    (hzone : ((env.evalRestrictions bp).isInsideAppInstallDir ||
        (env.evalRestrictions bp).isInsideUpdaterCache ||
        (env.evalRestrictions bp).isOneDrive) = true) :
    basePathPhase env v = { v with
      basePath := some VStatus.error
      unsafeBasePath := some true
      unsafeBasePathReason :=
        if (env.evalRestrictions bp).isInsideAppInstallDir then
          some RestrictedPathType.appInstallDir
        else if (env.evalRestrictions bp).isInsideUpdaterCache then
          some RestrictedPathType.updaterCache
        else if (env.evalRestrictions bp).isOneDrive then
          some RestrictedPathType.oneDrive
        else none } := by
  unfold basePathPhase
  rw [hbp]
  dsimp only
  rw [if_pos (And.intro hne hacc), if_pos hzone]

theorem envChecksPhase_error (env : InstallEnv) (v : InstallValidation)
    (hv : v.basePath = some VStatus.error) :
    envChecksPhase env v = v := by
  unfold envChecksPhase
  rw [hv]
  simp

theorem finishPhase_eq (env : InstallEnv) (v : InstallValidation) :
    finishPhase env v = { v with
      git := some (if env.gitOk then VStatus.OK else VStatus.error)
      vcRedist := some (if env.platform = Platform.win32 then
        (if env.vcRedistAccessible then VStatus.OK else VStatus.error)
      else VStatus.skipped)
      inProgress := false } := by
  unfold finishPhase
  dsimp only
  split <;> simp_all

/-- **C2**: when the configured base path is set and accessible but lies
inside a restricted zone, validate marks basePath=error with
unsafeBasePath=true and the first-match reason (appInstallDir, then
updaterCache, then oneDrive), skips every environment check, still runs
the git check, and still sets vcRedist (skipped off Windows). -/
theorem validateInstallation_unsafeBasePath (env : InstallEnv)
    (state : Option DesktopInstallState) (bp : String) (v : InstallValidation)
    (hv : v = validateInstallation env state)
    (hbp : env.configBasePath = some bp) (hne : bp ≠ "")
    (hacc : env.basePathAccessible = true)
    (hzone : ((env.evalRestrictions bp).isInsideAppInstallDir ||
        (env.evalRestrictions bp).isInsideUpdaterCache ||
        (env.evalRestrictions bp).isOneDrive) = true) :
    v.basePath = some VStatus.error
    ∧ v.unsafeBasePath = some true
    ∧ v.unsafeBasePathReason =
        (if (env.evalRestrictions bp).isInsideAppInstallDir then
          some RestrictedPathType.appInstallDir
        else if (env.evalRestrictions bp).isInsideUpdaterCache then
          some RestrictedPathType.updaterCache
        else some RestrictedPathType.oneDrive)
    ∧ v.venvDirectory = none ∧ v.pythonInterpreter = none ∧ v.uv = none
    ∧ v.pythonPackages = none
    ∧ v.git = some (if env.gitOk then VStatus.OK else VStatus.error)
    ∧ v.vcRedist = some (if env.platform = Platform.win32 then
        (if env.vcRedistAccessible then VStatus.OK else VStatus.error)
      else VStatus.skipped) := by
  subst hv
  unfold validateInstallation
  rw [legacyUpgradePhase_eq,
    basePathPhase_unsafe env _ bp hbp hne hacc hzone,
    envChecksPhase_error env _ rfl,
    finishPhase_eq]
  refine ⟨rfl, rfl, ?_, rfl, rfl, rfl, rfl, rfl, rfl⟩
  repeat' split
  all_goals simp_all

/-- Concrete environment witnessing C2: an accessible base path inside
the app install directory, on a non-Windows platform. -/
def c2Env : InstallEnv where
  platform := Platform.darwin
  configBasePath := some "/apps/comfyui/resources"
  basePathAccessible := true
  evalRestrictions := fun _ =>
    { normalizedPath := some "/apps/comfyui/resources"
      isInsideAppInstallDir := true
      isInsideUpdaterCache := false
      isOneDrive := false }
  serverConfigExists := false
  venvExists := true
  pythonExecutable := true
  uvExecutable := true
  hasRequirementsResult := Except.ok ReqStatus.OK
  gitOk := true
  vcRedistAccessible := false

/-- Witness for C2 at a concrete input. -/
theorem validateInstallation_unsafeBasePath_witness :
    c2Env.basePathAccessible = true ∧
    (validateInstallation c2Env (some DesktopInstallState.installed)).basePath
      = some VStatus.error ∧
    (validateInstallation c2Env (some DesktopInstallState.installed)).unsafeBasePathReason
      = some RestrictedPathType.appInstallDir ∧
    (validateInstallation c2Env (some DesktopInstallState.installed)).venvDirectory = none ∧
    (validateInstallation c2Env (some DesktopInstallState.installed)).vcRedist
      = some VStatus.skipped := by
  have h := validateInstallation_unsafeBasePath c2Env (some DesktopInstallState.installed)
    "/apps/comfyui/resources" _ rfl rfl (by decide) rfl rfl
  refine ⟨rfl, h.1, ?_, h.2.2.2.1, ?_⟩
  · rw [h.2.2.1]
    rfl
  · rw [h.2.2.2.2.2.2.2.2]
    rfl

theorem mem_optVals {α : Type} (f : α → JsValue) (o : Option α) (x : JsValue) :
    x ∈ optVals f o ↔ ∃ a, o = some a ∧ x = f a := by
  cases o <;> simp [optVals]

theorem error_eq_statusStr_iff (st : VStatus) : "error" = statusStr st ↔ st = VStatus.error := by
  cases st <;> simp [statusStr]

theorem error_ne_stateStr (st : DesktopInstallState) : ¬ ("error" = stateStr st) := by
  cases st <;> simp [stateStr]

theorem error_ne_reasonStr (t : RestrictedPathType) : ¬ ("error" = reasonStr t) := by
  cases t <;> simp [reasonStr]

/-- `Object.values(validation).includes('error')` holds exactly when a
status field is 'error' (or the free-form error field is the literal
string 'error'). -/
theorem hasIssues_iff (w : InstallValidation) :
    w.hasIssues = true ↔
      (w.basePath = some VStatus.error ∨ w.venvDirectory = some VStatus.error ∨
       w.pythonInterpreter = some VStatus.error ∨ w.uv = some VStatus.error ∨
       w.pythonPackages = some VStatus.error ∨ w.upgradePackages = some VStatus.error ∨
       w.git = some VStatus.error ∨ w.vcRedist = some VStatus.error ∨
       w.error = some "error") := by
  unfold InstallValidation.hasIssues InstallValidation.jsValues
  rw [List.contains_iff_exists_mem_beq]
  cases hinst : w.installState <;>
    simp [List.mem_append, mem_optVals, beq_iff_eq, error_eq_statusStr_iff,
      error_ne_stateStr, error_ne_reasonStr, exists_eq_right']

theorem basePathPhase_safe (env : InstallEnv) (v : InstallValidation) (bp : String)
    (hbp : env.configBasePath = some bp) (hne : bp ≠ "")
    (hacc : env.basePathAccessible = true)
    (hsafe : ((env.evalRestrictions bp).isInsideAppInstallDir ||
        (env.evalRestrictions bp).isInsideUpdaterCache ||
        (env.evalRestrictions bp).isOneDrive) = false) :
    basePathPhase env v = { v with basePath := some VStatus.OK } := by
  unfold basePathPhase
  rw [hbp]
  dsimp only
  rw [if_pos (And.intro hne hacc), if_neg (by simp [hsafe])]

theorem envChecksPhase_packageUpgrade (env : InstallEnv) (v : InstallValidation)
    (hbp : v.basePath = some VStatus.OK)
    (hvenv : env.venvExists = true) (huv : env.uvExecutable = true)
    (hreq : env.hasRequirementsResult = Except.ok ReqStatus.packageUpgrade) :
    envChecksPhase env v = { v with
      venvDirectory := some VStatus.OK
      pythonInterpreter := some (if env.pythonExecutable then VStatus.OK else VStatus.error)
      uv := some VStatus.OK
      pythonPackages := some VStatus.OK
      upgradePackages := some VStatus.warning } := by
  unfold envChecksPhase
  rw [hbp, hvenv, huv, hreq]
  simp

/-- **C6**: when hasRequirements resolves to 'package-upgrade', validate
sets pythonPackages='OK' and upgradePackages='warning'; isValid holds
exactly when state == 'installed' and no field of the report equals
'error' (so the warning never blocks validity), and hasIssues holds
exactly when some field equals 'error'. -/
theorem validate_isValid_hasIssues (env : InstallEnv) (state : Option DesktopInstallState)
    (bp : String) (v : InstallValidation) (hv : v = validateInstallation env state)
    (hbp : env.configBasePath = some bp) (hne : bp ≠ "")
    (hacc : env.basePathAccessible = true)
    (hsafe : ((env.evalRestrictions bp).isInsideAppInstallDir ||
        (env.evalRestrictions bp).isInsideUpdaterCache ||
        (env.evalRestrictions bp).isOneDrive) = false)
    (hvenv : env.venvExists = true) (huv : env.uvExecutable = true)
    (hreq : env.hasRequirementsResult = Except.ok ReqStatus.packageUpgrade) :
    (v.pythonPackages = some VStatus.OK ∧ v.upgradePackages = some VStatus.warning)
    ∧ (∀ (st : Option DesktopInstallState) (w : InstallValidation),
        isValidInstallation st w = true ↔
          (st = some DesktopInstallState.installed ∧
            ¬ (w.basePath = some VStatus.error ∨ w.venvDirectory = some VStatus.error ∨
               w.pythonInterpreter = some VStatus.error ∨ w.uv = some VStatus.error ∨
               w.pythonPackages = some VStatus.error ∨ w.upgradePackages = some VStatus.error ∨
               w.git = some VStatus.error ∨ w.vcRedist = some VStatus.error ∨
               w.error = some "error")))
    ∧ (∀ w : InstallValidation, w.hasIssues = true ↔
        (w.basePath = some VStatus.error ∨ w.venvDirectory = some VStatus.error ∨
         w.pythonInterpreter = some VStatus.error ∨ w.uv = some VStatus.error ∨
         w.pythonPackages = some VStatus.error ∨ w.upgradePackages = some VStatus.error ∨
         w.git = some VStatus.error ∨ w.vcRedist = some VStatus.error ∨
         w.error = some "error")) := by
  refine ⟨?_, ?_, fun w => hasIssues_iff w⟩
  · subst hv
    unfold validateInstallation
    rw [legacyUpgradePhase_eq,
      basePathPhase_safe env _ bp hbp hne hacc hsafe,
      envChecksPhase_packageUpgrade env _ rfl hvenv huv hreq,
      finishPhase_eq]
    exact ⟨rfl, rfl⟩
  · intro st w
    unfold isValidInstallation
    rw [Bool.and_eq_true, decide_eq_true_eq, ← hasIssues_iff]
    simp

/-- Concrete environment witnessing C6: a healthy installation whose
only finding is the package-upgrade warning. -/
def c6Env : InstallEnv where
  platform := Platform.darwin
  configBasePath := some "/data/comfy"
  basePathAccessible := true
  evalRestrictions := fun _ =>
    { normalizedPath := some "/data/comfy"
      isInsideAppInstallDir := false
      isInsideUpdaterCache := false
      isOneDrive := false }
  serverConfigExists := false
  venvExists := true
  pythonExecutable := true
  uvExecutable := true
  hasRequirementsResult := Except.ok ReqStatus.packageUpgrade
  gitOk := true
  vcRedistAccessible := true

/-- Witness for C6 at a concrete input. -/
theorem validate_isValid_hasIssues_witness :
    c6Env.hasRequirementsResult = Except.ok ReqStatus.packageUpgrade ∧
    (validateInstallation c6Env (some DesktopInstallState.installed)).pythonPackages
      = some VStatus.OK ∧
    (validateInstallation c6Env (some DesktopInstallState.installed)).upgradePackages
      = some VStatus.warning ∧
    isValidInstallation (some DesktopInstallState.installed)
      (validateInstallation c6Env (some DesktopInstallState.installed)) = true := by
  have h := validate_isValid_hasIssues c6Env (some DesktopInstallState.installed)
    "/data/comfy" _ rfl rfl (by decide) rfl rfl rfl rfl rfl
  exact ⟨rfl, h.1.1, h.1.2, by decide⟩

/-! ### Pty teardown invariants (C8, C10) -/

theorem ptyCleanup_none (s : UvState) (h : s.uvPty ≠ some 0) : (ptyCleanup s).uvPty = none := by
  unfold ptyCleanup
  cases hp : s.uvPty with
  | none => simp [hp]
  | some pid =>
    have hp0 : pid ≠ 0 := fun h0 => h (hp.trans (by rw [h0]))
    simp [hp0]

theorem ptyCleanup_killed (s : UvState) (pid : Nat) (hp : s.uvPty = some pid) (h0 : pid ≠ 0) :
    pid ∈ (ptyCleanup s).killed := by
  unfold ptyCleanup
  rw [hp]
  simp [h0]

theorem touchPty_noZero (env : CreateEnv) (s : UvState) (hpid : env.ptyPid ≠ 0)
    (h : s.uvPty ≠ some 0) : (touchPty env s).uvPty ≠ some 0 := by
  unfold touchPty
  dsimp only
  cases hp : s.uvPty with
  | none =>
    simp only [Option.getD_none]
    simpa using hpid
  | some p =>
    simp only [Option.getD_some]
    intro hc
    exact h (hp.trans hc)

theorem runUvPtyCommand_noZero (env : CreateEnv) (a : VAction) (exit : Int) (msg : String)
    (hpid : env.ptyPid ≠ 0) (s : UvState) (h : s.uvPty ≠ some 0) :
    ((runUvPtyCommand env a exit msg s).2).uvPty ≠ some 0 := by
  unfold runUvPtyCommand
  dsimp only
  split <;> exact touchPty_noZero env (logAction a s) hpid h

theorem ensurePip_noZero (env : CreateEnv) (s : UvState) (h : s.uvPty ≠ some 0) :
    ((ensurePip env s).2).uvPty ≠ some 0 := by
  unfold ensurePip
  dsimp only
  split <;> exact h

theorem mBind_noZero {α β : Type} (m : UvM α) (f : α → UvM β) (s : UvState)
    (hm : ∀ t : UvState, t.uvPty ≠ some 0 → ((m t).2).uvPty ≠ some 0)
    (hf : ∀ (a : α) (t : UvState), t.uvPty ≠ some 0 → ((f a t).2).uvPty ≠ some 0)
    (h : s.uvPty ≠ some 0) : ((mBind m f s).2).uvPty ≠ some 0 := by
  unfold mBind
  have hm' := hm s h
  cases hms : m s with
  | mk r s₁ =>
    rw [hms] at hm'
    cases r with
    | ok a => exact hf a s₁ hm'
    | error e => exact hm'

theorem manualInstall_noZero (env : CreateEnv) (hpid : env.ptyPid ≠ 0) (s : UvState)
    (h : s.uvPty ≠ some 0) : ((manualInstall env s).2).uvPty ≠ some 0 := by
  unfold manualInstall
  refine mBind_noZero _ _ _
    (fun t ht => runUvPtyCommand_noZero env _ _ _ hpid t ht) (fun u t ht => ?_) h
  exact mBind_noZero _ _ _
    (fun t2 ht2 => runUvPtyCommand_noZero env _ _ _ hpid t2 ht2)
    (fun u2 t2 ht2 => runUvPtyCommand_noZero env _ _ _ hpid t2 ht2) ht

theorem installRequirements_noZero (env : CreateEnv) (hpid : env.ptyPid ≠ 0) (s : UvState)
    (h : s.uvPty ≠ some 0) : ((installRequirements env s).2).uvPty ≠ some 0 := by
  unfold installRequirements
  dsimp only
  split
  · exact touchPty_noZero env _ hpid h
  · exact manualInstall_noZero env hpid _ (touchPty_noZero env _ hpid h)

theorem createEnvironmentBody_noZero (env : CreateEnv) (hpid : env.ptyPid ≠ 0) (s : UvState)
    (h : s.uvPty ≠ some 0) : ((createEnvironmentBody env s).2).uvPty ≠ some 0 := by
  unfold createEnvironmentBody
  refine mBind_noZero _ _ _ (fun t ht => ht) (fun ex t ht => ?_) h
  cases ex
  · rw [if_neg (by simp)]
    refine mBind_noZero _ _ _
      (fun t2 ht2 => runUvPtyCommand_noZero env _ _ _ hpid t2 ht2) (fun u t2 ht2 => ?_) ht
    refine mBind_noZero _ _ _ (fun t3 ht3 => ensurePip_noZero env t3 ht3)
      (fun u2 t3 ht3 => ?_) ht2
    exact mBind_noZero _ _ _ (fun t4 ht4 => installRequirements_noZero env hpid t4 ht4)
      (fun u3 t4 ht4 => ht4) ht3
  · rw [if_pos rfl]
    refine mBind_noZero _ _ _ (fun t2 ht2 => ht2) (fun st t2 ht2 => ?_) ht
    refine mBind_noZero _ _ _ (fun t3 ht3 => ?_) (fun u t3 ht3 => ?_) ht2
    · by_cases hst : st = ReqStatus.OK
      · rw [if_pos hst]
        exact ht3
      · rw [if_neg hst]
        exact manualInstall_noZero env hpid t3 ht3
    · refine mBind_noZero _ _ _ (fun t4 ht4 => ht4) (fun ok t4 ht4 => ?_) ht3
      cases ok
      · rw [if_neg (by simp)]
        exact ht4
      · rw [if_pos rfl]
        exact ht4

theorem createEnvironment_noZero (env : CreateEnv) (hpid : env.ptyPid ≠ 0) (s : UvState)
    (h : s.uvPty ≠ some 0) : ((createEnvironment env s).2).uvPty ≠ some 0 := by
  unfold createEnvironment
  dsimp only
  split
  · exact h
  · have hb := createEnvironmentBody_noZero env hpid (trackTel evCreateStart s) h
    cases hbs : createEnvironmentBody env (trackTel evCreateStart s) with
    | mk r s₁ =>
      rw [hbs] at hb
      cases r with
      | ok a => exact hb
      | error e => exact hb

theorem usingPty_none {α : Type} (body : UvM α) (s : UvState)
    (hb : ((body s).2).uvPty ≠ some 0) : ((usingPty body s).2).uvPty = none := by
  unfold usingPty
  cases hbs : body s with
  | mk r s₁ =>
    rw [hbs] at hb
    exact ptyCleanup_none s₁ hb

theorem usingPty_fst {α : Type} (body : UvM α) (s : UvState) :
    (usingPty body s).1 = (body s).1 := by
  unfold usingPty
  cases hbs : body s with
  | mk r s₁ => rfl

theorem create_state_eq (env : CreateEnv) (s : UvState) :
    (create env s).2 = ptyCleanup ((createEnvironment env s).2) := by
  unfold create
  cases hcs : createEnvironment env s with
  | mk r s₁ => rfl

theorem create_fst (env : CreateEnv) (s : UvState) :
    (create env s).1 = (createEnvironment env s).1 := by
  unfold create
  cases hcs : createEnvironment env s with
  | mk r s₁ => rfl

theorem createVenvRepair_none (env : CreateEnv) (hpid : env.ptyPid ≠ 0) (s : UvState)
    (h : s.uvPty ≠ some 0) : ((createVenvRepair env s).2).uvPty = none := by
  unfold createVenvRepair
  have hn := usingPty_none (createVenvWithPython env) s
    (runUvPtyCommand_noZero env _ _ _ hpid s h)
  cases hu : usingPty (createVenvWithPython env) s with
  | mk r s₁ =>
    rw [hu] at hn
    cases r <;> exact hn

theorem upgradePip_none (env : CreateEnv) (s : UvState)
    (h : s.uvPty ≠ some 0) : ((upgradePip env s).2).uvPty = none := by
  unfold upgradePip
  have hn := usingPty_none (ensurePip env) s (ensurePip_noZero env s h)
  cases hu : usingPty (ensurePip env) s with
  | mk r s₁ =>
    rw [hu] at hn
    cases r <;> exact hn

theorem reinstallRequirements_none (env : CreateEnv) (hpid : env.ptyPid ≠ 0) (s : UvState)
    (h : s.uvPty ≠ some 0) : ((reinstallRequirements env s).2).uvPty = none := by
  unfold reinstallRequirements
  have h1none := usingPty_none (manualInstall env) s (manualInstall_noZero env hpid s h)
  cases h1 : usingPty (manualInstall env) s with
  | mk r1 s₁ =>
    rw [h1] at h1none
    cases r1 with
    | ok a => exact h1none
    | error e =>
      dsimp only
      have hs₁ : s₁.uvPty ≠ some 0 := by rw [h1none]; simp
      have h2none := createVenvRepair_none env hpid s₁ hs₁
      cases h2 : createVenvRepair env s₁ with
      | mk r2 s₂ =>
        rw [h2] at h2none
        cases r2 with
        | error e2 => exact h2none
        | ok created =>
          dsimp only
          cases created
          · exact h2none
          · rw [if_neg (by simp)]
            have hs₂ : s₂.uvPty ≠ some 0 := by rw [h2none]; simp
            have h3none := upgradePip_none env s₂ hs₂
            cases h3 : upgradePip env s₂ with
            | mk r3 s₃ =>
              rw [h3] at h3none
              cases r3 with
              | error e3 => exact h3none
              | ok pipOk =>
                dsimp only
                cases pipOk
                · exact h3none
                · rw [if_neg (by simp)]
                  have hs₃ : s₃.uvPty ≠ some 0 := by rw [h3none]; simp
                  have h4none := usingPty_none (manualInstall env) s₃
                    (manualInstall_noZero env hpid s₃ hs₃)
                  cases h4 : usingPty (manualInstall env) s₃ with
                  | mk r4 s₄ =>
                    rw [h4] at h4none
                    cases r4 <;> exact h4none

/-- **C8**: create() and every repair operation wrapped by the pty guard
(reinstallRequirements, upgradePip, createVenv) terminates the live pty
process and resets the handle to undefined on every exit path, including
when the wrapped operation throws. -/
theorem create_ptyTeardown (env : CreateEnv) (s : UvState)
    (hpid : env.ptyPid ≠ 0) (hs : s.uvPty ≠ some 0) :
    ((create env s).2).uvPty = none
    ∧ ((reinstallRequirements env s).2).uvPty = none
    ∧ ((upgradePip env s).2).uvPty = none
    ∧ ((createVenvRepair env s).2).uvPty = none
    ∧ (create env s).1 = (createEnvironment env s).1
    ∧ (∀ pid, ((createEnvironment env s).2).uvPty = some pid →
        pid ∈ ((create env s).2).killed)
    ∧ (∀ (α : Type) (body : UvM α), ((body s).2).uvPty ≠ some 0 →
        ((usingPty body s).2).uvPty = none ∧ (usingPty body s).1 = (body s).1) := by
  refine ⟨?_, reinstallRequirements_none env hpid s hs, upgradePip_none env s hs,
    createVenvRepair_none env hpid s hs, create_fst env s, ?_, ?_⟩
  · rw [create_state_eq]
    exact ptyCleanup_none _ (createEnvironment_noZero env hpid s hs)
  · intro pid hp
    have hnz := createEnvironment_noZero env hpid s hs
    have hpid0 : pid ≠ 0 := fun h0 => hnz (hp.trans (by rw [h0]))
    rw [create_state_eq]
    exact ptyCleanup_killed _ pid hp hpid0
  · intro α body hb
    exact ⟨usingPty_none body s hb, usingPty_fst body s⟩

/-- Concrete environment witnessing C8: venv creation fails (nonzero
exit) after the pty is spawned; the guard must still kill pid 42. -/
def c8Env : CreateEnv where
  selectedDevice := TorchDeviceType.cpu
  ptyPid := 42
  venvExists := false
  hasReqResult := Except.ok ReqStatus.OK
  pytorchExit := 0
  comfyReqExit := 0
  managerReqExit := 0
  verifyImportsOk := true
  createVenvExit := 1
  ensurePipExit := 0
  compiledInstallExit := 0

def c8State : UvState where
  uvPty := none
  killed := []
  actions := []
  events := []

/-- Witness for C8 at a concrete input. -/
theorem create_ptyTeardown_witness :
    c8Env.ptyPid ≠ 0 ∧ c8State.uvPty ≠ some 0 ∧
    ((create c8Env c8State).2).uvPty = none ∧
    ((reinstallRequirements c8Env c8State).2).uvPty = none ∧
    ((create c8Env c8State).2).killed = [42] := by
  have h := create_ptyTeardown c8Env c8State (by decide) (by simp [c8State])
  exact ⟨by decide, by simp [c8State], h.1, h.2.1, by decide⟩

/-- **C10**: when selectedDevice is 'unsupported', create() resolves
successfully without invoking any operation (no venv creation, package
install, requirements check, or import verification) — only telemetry is
recorded, even when the venv directory does not exist. -/
theorem create_unsupported_skips (env : CreateEnv) (s : UvState)
    (hdev : env.selectedDevice = TorchDeviceType.unsupported)
    (hvenv : env.venvExists = false) (hpty : s.uvPty = none) :
    create env s =
      (Except.ok (), { s with events := s.events ++ [evCreateStart, evCreateEnd] })
    ∧ createEnvironment env s =
      (Except.ok (), { s with events := s.events ++ [evCreateStart, evCreateEnd] })
    ∧ ((createEnvironment env s).2).actions = s.actions
    ∧ ((createEnvironment env s).2).uvPty = s.uvPty := by
  have hce : createEnvironment env s =
      (Except.ok (), { s with events := s.events ++ [evCreateStart, evCreateEnd] }) := by
    unfold createEnvironment
    dsimp only
    rw [hdev, if_pos rfl]
    unfold trackTel
    simp
  refine ⟨?_, hce, by rw [hce], by rw [hce]⟩
  unfold create
  rw [hce]
  dsimp only
  unfold ptyCleanup
  dsimp only
  rw [hpty]

/-- Concrete environment witnessing C10. -/
def c10Env : CreateEnv where
  selectedDevice := TorchDeviceType.unsupported
  ptyPid := 7
  venvExists := false
  hasReqResult := Except.ok ReqStatus.OK
  pytorchExit := 0
  comfyReqExit := 0
  managerReqExit := 0
  verifyImportsOk := false
  createVenvExit := 0
  ensurePipExit := 0
  compiledInstallExit := 0

/-- Witness for C10 at a concrete input. -/
theorem create_unsupported_skips_witness :
    c10Env.selectedDevice = TorchDeviceType.unsupported ∧ c10Env.venvExists = false ∧
    create c10Env { uvPty := none, killed := [], actions := [], events := [] } =
      (Except.ok (),
        { uvPty := none, killed := [], actions := [], events := [evCreateStart, evCreateEnd] }) := by
  have h := create_unsupported_skips c10Env
    { uvPty := none, killed := [], actions := [], events := [] } rfl rfl rfl
  refine ⟨rfl, rfl, ?_⟩
  rw [h.1]
  rfl

end AIWorkstation
